import Mathlib

/-!
Shallow embedding of the payment-provider class `MBWAYViaIfThenPay`
from `pretix_sibsgateway/payment.py`, for checking the specification's
claims about the gateway payment adapter.

Conventions of the embedding:
* Python exceptions are values of `PyExc`; a method that can raise
  returns `Except PyExc _`.
* The Django session is a partial map `String → Option String`;
  `session.get(k, d)` is `sessionGetD`.
* The host `OrderPayment` object is a record with its `state`, the
  stored `info` payload and a count of the explicit `save()` calls the
  adapter performs on it.
* The PayPal SDK payment object manipulated by `_execute_payment`
  (lines 179-261 of payment.py) is the record `PPPayment`: its `state`
  string and its transactions with their related resources.
* Monetary amounts are embedded as integral counts of cents, so the
  two-fraction-digit rendering of `format_price` is exact.
-/

/-- Python exception values raised by the adapter's code paths. -/
inductive PyExc where
  /-- `PaymentException` from `pretix.base.payment`. -/
  | paymentException
  /-- An `AttributeError` for a missing attribute. -/
  | attributeError (attr : String)
  /-- A `NameError` for an undefined global name. -/
  | nameError (nm : String)
  /-- A `TypeError`, e.g. for a call with missing required arguments. -/
  | typeError (msg : String)
deriving Repr, DecidableEq

/-- Decidable equality for `Except`, needed to evaluate the adapter's
outcomes on concrete inputs. -/
instance {ε α : Type} [DecidableEq ε] [DecidableEq α] : DecidableEq (Except ε α) :=
  fun a b =>
    match a, b with
    | Except.ok x, Except.ok y =>
        if h : x = y then isTrue (by rw [h]) else isFalse (fun hh => h (Except.ok.inj hh))
    | Except.error e, Except.error f =>
        if h : e = f then isTrue (by rw [h]) else isFalse (fun hh => h (Except.error.inj hh))
    | Except.ok _, Except.error _ => isFalse (fun hh => Except.noConfusion hh)
    | Except.error _, Except.ok _ => isFalse (fun hh => Except.noConfusion hh)

/-- Line 63 of payment.py: `SUPPORTED_CURRENCIES = ['EUR']`. -/
def SUPPORTED_CURRENCIES : List String := ["EUR"]

/-- Lines 131-132 of payment.py: `is_allowed` returns the conjunction of the
host base provider's `is_allowed` (here the abstract boolean `superAllowed`)
with membership of the event currency in `SUPPORTED_CURRENCIES`. -/
def is_allowed (superAllowed : Bool) (currency : String) : Bool :=
  superAllowed && SUPPORTED_CURRENCIES.contains currency

/-- Python's `session.get(key, default)` over the session map. -/
def sessionGetD (session : String → Option String) (key dflt : String) : String :=
  (session key).getD dflt

/-- Lines 134-136 of payment.py: the session is valid when both
`payment_paypal_id` and `payment_paypal_payer` are set and non-empty. -/
def payment_is_valid_session (session : String → Option String) : Bool :=
  (sessionGetD session "payment_paypal_id" "" != "") &&
  (sessionGetD session "payment_paypal_payer" "" != "")

/-- Lines 146-147 of payment.py: `format_price` renders a value with the
Python format specification of one leading space and two fraction digits.
The value is embedded as a count of cents; `pad2` renders the cents part. -/
def pad2 (k : Nat) : String :=
  if k < 10 then "0" ++ Nat.repr k else Nat.repr k

/-- Lines 146-147 of payment.py: the body of `format_price` for a
non-negative amount of `cents` cents. -/
def format_price (cents : Nat) : String :=
  " " ++ Nat.repr (cents / 100) ++ "." ++ pad2 (cents % 100)

/-- Modelled from the spec: `get_order_id` is called by
`payment_control_render` (line 293) and `payment_control_render_short`
(line 303) of payment.py but is not defined anywhere under src/.  The spec
defines the derivation as `order_id = local_payment_id mod 10^15`,
formatted as a decimal string with no leading sign. -/
def get_order_id (local_id : Nat) : String :=
  Nat.repr (local_id % 10 ^ 15)

/-- The slice of the stored `info_data` JSON that `matching_id`
(lines 268-274 of payment.py) inspects: for each related resource of each
transaction, the id of its `sale` object when one is present. -/
structure InfoResource where
  /-- `res['sale']['id']` when `'sale' in res and 'id' in res['sale']`. -/
  sale_id : Option String
deriving Repr, DecidableEq

/-- One entry of `info_data['transactions']`. -/
structure InfoTrans where
  related_resources : List InfoResource
deriving Repr, DecidableEq

/-- The stored gateway info payload of a payment, as read by
`matching_id` and `api_payment_details`. -/
structure InfoData where
  /-- `info_data.get('id', None)`. -/
  id : Option String
  transactions : List InfoTrans
deriving Repr, DecidableEq

/-- The host `OrderPayment` fields this adapter reads:
its numeric `local_id` and its stored `info_data`. -/
structure OrderPaymentRec where
  local_id : Nat
  info_data : InfoData
deriving Repr, DecidableEq

/-- Lines 302-303 of payment.py: `payment_control_render_short` returns
`self.get_order_id(payment)` (everything after the `return` on line 303 is
unreachable). -/
def payment_control_render_short (p : OrderPaymentRec) : String :=
  get_order_id p.local_id

/-- Lines 269-273 of payment.py: the scan that leaves `sale_id` bound to
the LAST `res['sale']['id']` found across all transactions, or `None`. -/
def last_sale_id (info : InfoData) : Option String :=
  info.transactions.foldl
    (fun acc t =>
      t.related_resources.foldl
        (fun a r =>
          match r.sale_id with
          | some s => some s
          | none => a)
        acc)
    none

/-- Lines 268-274 of payment.py: `matching_id` returns
`sale_id or payment.info_data.get('id', None)`; Python's `or` falls back
when `sale_id` is `None` or the empty string. -/
def matching_id (p : OrderPaymentRec) : Option String :=
  match last_sale_id p.info_data with
  | some s => if s == "" then p.info_data.id else some s
  | none => p.info_data.id

/-- The provider settings: gateway key, MB WAY key, environment and
description, per the settings form (lines 83-129 of payment.py). -/
structure Settings where
  gateway_key : String
  mb_way_key : String
  environment : String
  description : String
deriving Repr, DecidableEq

/-- Modelled from the spec: neither the class `MBWAYViaIfThenPay` nor the
host base provider contract described by the spec (section 6) defines an
`init_api` attribute, so the attribute lookup `self.init_api` on line 168
of payment.py raises `AttributeError` (and the next statement, line 169,
would reference the global name `paypalrestsdk`, which payment.py never
imports). -/
def init_api_lookup : Except PyExc Unit :=
  Except.error (PyExc.attributeError "init_api")

/-- The observable outcome of `execute_payment`: what it raises or
returns, and how many outbound HTTP requests it issued. -/
structure ExecPaymentOutcome where
  result : Except PyExc Unit
  httpRequests : Nat
deriving Repr, DecidableEq

/-- Lines 163-177 of payment.py: `execute_payment` first checks the two
PayPal session entries (raising `PaymentException` when either is empty),
then evaluates `self.init_api()`, which fails on the missing attribute
before any network call is reached.  The provider settings `cfg` are in
scope through `self` but are never read on any path of the method. -/
def execute_payment (cfg : Settings) (session : String → Option String) :
    ExecPaymentOutcome :=
  if (sessionGetD session "payment_paypal_id" "" == "") ||
     (sessionGetD session "payment_paypal_payer" "" == "") then
    { result := Except.error PyExc.paymentException, httpRequests := 0 }
  else
    { result := init_api_lookup, httpRequests := 0 }

/-- The host payment lifecycle states touched by the adapter. -/
inductive PayState where
  | created
  | pending
  | confirmed
  | failed
deriving Repr, DecidableEq

/-- A `sale` related resource of a PayPal transaction. -/
structure PPSale where
  state : String
deriving Repr, DecidableEq

/-- One related resource; `sale` is present when the resource has a
truthy `sale` attribute. -/
structure PPResource where
  sale : Option PPSale
deriving Repr, DecidableEq

/-- One transaction of the PayPal payment object. -/
structure PPTrans where
  related_resources : List PPResource
deriving Repr, DecidableEq

/-- The PayPal SDK payment object, as inspected by `_execute_payment`. -/
structure PPPayment where
  state : String
  transactions : List PPTrans
deriving Repr, DecidableEq

/-- The host `OrderPayment` object as mutated by `_execute_payment`:
its state, the stored gateway payload (the serialized
`payment.to_dict()`), and the number of explicit `save()` calls the
adapter has made on it. -/
structure OrderPaymentObj where
  state : PayState
  info : Option PPPayment
  saveCount : Nat
deriving Repr, DecidableEq

/-- Lines 222-224 of payment.py: whether some related resource of some
transaction carries a sale in state `pending`. -/
def hasPendingSale (pp : PPPayment) : Bool :=
  pp.transactions.any fun t =>
    t.related_resources.any fun r =>
      match r.sale with
      | some s => s.state == "pending"
      | none => false

/-- The outcome of `_execute_payment`: the value returned or exception
raised (the method returns `None` on every non-raising path), the final
host payment object, and whether `payment_obj.confirm()` was called. -/
structure ExecOutcome where
  result : Except PyExc Unit
  obj : OrderPaymentObj
  confirmCalled : Bool
deriving Repr, DecidableEq

/-- Lines 222-261 of payment.py, the state mapping of `_execute_payment`
applied to the gateway payment object `pp` as it stands after the
external `payment.execute(...)` call of lines 180-220:
* a `pending` sale, or a gateway payment state of `pending`, stores the
  payload, sets the host payment state to `pending` and saves it once,
  returning `None`;
* any state other than `approved` marks the payment failed via
  `payment_obj.fail(...)` (a host call that persists the failure) and
  raises `PaymentException`;
* state `approved` with the payment already `confirmed` returns `None`
  unchanged;
* otherwise the payload is saved (`save(update_fields=['info'])`) and
  `payment_obj.confirm()` transitions the payment to `confirmed`. -/
def _execute_payment (pp : PPPayment) (obj : OrderPaymentObj) : ExecOutcome :=
  if hasPendingSale pp then
    { result := Except.ok ()
      obj := { state := PayState.pending, info := some pp, saveCount := obj.saveCount + 1 }
      confirmCalled := false }
  else if pp.state == "pending" then
    { result := Except.ok ()
      obj := { state := PayState.pending, info := some pp, saveCount := obj.saveCount + 1 }
      confirmCalled := false }
  else if pp.state != "approved" then
    { result := Except.error PyExc.paymentException
      obj := { state := PayState.failed, info := some pp, saveCount := obj.saveCount }
      confirmCalled := false }
  else if obj.state == PayState.confirmed then
    { result := Except.ok (), obj := obj, confirmCalled := false }
  else
    { result := Except.ok ()
      obj := { state := PayState.confirmed, info := some pp, saveCount := obj.saveCount + 1 }
      confirmCalled := true }

/-- Lines 143-144 of payment.py: `checkout_prepare(self, request, cart)`
evaluates `super().checkout_prepare()`.  The base hook takes the request
and the cart, so the zero-argument call raises `TypeError` before the
base implementation (the argument `base`) can run. -/
def checkout_prepare (base : Unit → Unit → Except PyExc Bool)
    (request : Unit) (cart : Unit) : Except PyExc Bool :=
  Except.error (PyExc.typeError "checkout_prepare missing 2 required positional arguments")

/-- The stored info payload as transformed by `shred_payment_info`. -/
structure PayInfo where
  id : Option String
  payer_email : Option String
  update_time : Option String
  transaction_amounts : List (Option String)
  shredded : Bool
deriving Repr, DecidableEq

/-- The host object passed to `shred_payment_info`: its info payload and
the number of `save()` calls made on it.  (The log-entry redaction loop
of lines 458-468 touches external order log entries and is outside this
record.) -/
structure ShredObj where
  info : Option PayInfo
  saveCount : Nat
deriving Repr, DecidableEq

/-- Lines 437-456 of payment.py: when `obj.info` is set,
`shred_payment_info` rebuilds it keeping only the id, the update time and
the transaction amounts, masking the payer email, marking the payload
shredded, and saves the object; the host base implementation (the
argument `base`) is never invoked. -/
def shred_payment_info (base : ShredObj → ShredObj) (obj : ShredObj) : ShredObj :=
  match obj.info with
  | none => obj
  | some d =>
      { info := some
          { id := d.id
            payer_email := some "█"
            update_time := d.update_time
            transaction_amounts := d.transaction_amounts
            shredded := true }
        saveCount := obj.saveCount + 1 }

/-! ### Helper lemmas on decimal rendering -/

/-- Digit characters of the decimal digits are digit characters. -/
theorem digitChar_isDigit : ∀ n : Nat, n < 10 → (Nat.digitChar n).isDigit = true := by
  decide

/-- Every character produced by the core decimal renderer is a digit,
provided the accumulator holds only digits. -/
theorem toDigitsCore_isDigit :
    ∀ (fuel n : Nat) (ds : List Char), (∀ c ∈ ds, c.isDigit = true) →
      ∀ c ∈ Nat.toDigitsCore 10 fuel n ds, c.isDigit = true := by
  intro fuel
  induction fuel with
  | zero =>
      intro n ds hds c hc
      simp only [Nat.toDigitsCore] at hc
      exact hds c hc
  | succ f ih =>
      intro n ds hds c hc
      have hlt : n % 10 < 10 := Nat.mod_lt _ (by decide)
      by_cases h : n / 10 = 0
      · simp only [Nat.toDigitsCore, h, if_true] at hc
        rcases List.mem_cons.mp hc with rfl | hmem
        · exact digitChar_isDigit _ hlt
        · exact hds c hmem
      · simp only [Nat.toDigitsCore, h, if_false] at hc
        refine ih (n / 10) (Nat.digitChar (n % 10) :: ds) ?_ c hc
        intro x hx
        rcases List.mem_cons.mp hx with rfl | hx
        · exact digitChar_isDigit _ hlt
        · exact hds x hx

/-- The core decimal renderer never empties a non-empty accumulator. -/
theorem toDigitsCore_ne_nil :
    ∀ (fuel n : Nat) (ds : List Char), ds ≠ [] → Nat.toDigitsCore 10 fuel n ds ≠ [] := by
  intro fuel
  induction fuel with
  | zero =>
      intro n ds h
      simpa only [Nat.toDigitsCore] using h
  | succ f ih =>
      intro n ds h
      by_cases hdiv : n / 10 = 0
      · simp only [Nat.toDigitsCore, hdiv, if_true]
        exact List.cons_ne_nil _ _
      · simp only [Nat.toDigitsCore, hdiv, if_false]
        exact ih (n / 10) _ (List.cons_ne_nil _ _)

/-- Every character of the decimal rendering of a natural number is a
digit; in particular there is no sign and no space in it. -/
theorem repr_isDigit (n : Nat) : ∀ c ∈ (Nat.repr n).data, c.isDigit = true := by
  have h0 : ∀ c ∈ ([] : List Char), c.isDigit = true := by
    intro c hc
    cases hc
  exact toDigitsCore_isDigit (n + 1) n [] h0

/-- The decimal rendering of a natural number is non-empty. -/
theorem repr_ne_nil (n : Nat) : (Nat.repr n).data ≠ [] := by
  show Nat.toDigitsCore 10 (n + 1) n [] ≠ []
  by_cases h : n / 10 = 0
  · simp only [Nat.toDigitsCore, h, if_true]
    exact List.cons_ne_nil _ _
  · simp only [Nat.toDigitsCore, h, if_false]
    exact toDigitsCore_ne_nil n (n / 10) _ (List.cons_ne_nil _ _)

/-- Concatenation of strings concatenates their character lists. -/
theorem String_data_append (s t : String) : (s ++ t).data = s.data ++ t.data := by
  cases s
  cases t
  rfl

/-- The two-digit cents rendering has length two and holds only digits. -/
theorem pad2_spec :
    ∀ k : Nat, k < 100 → (pad2 k).length = 2 ∧ ∀ c ∈ (pad2 k).data, c.isDigit = true := by
  decide

/-! ### Claim theorems -/

/-- Claim C8: holding the host-imposed preconditions true (the base
provider's `is_allowed`, the abstract boolean), `is_allowed` returns true
exactly when the event currency is `EUR`, and returns false for every
other currency regardless of the host verdict; the embedded predicate is
a pure function of its inputs. -/
theorem is_allowed_eur_only :
    (∀ c : String, is_allowed true c = true ↔ c = "EUR") ∧
    (∀ (sa : Bool) (c : String), c ≠ "EUR" → is_allowed sa c = false) := by
  constructor
  · intro c
    simp [is_allowed, SUPPORTED_CURRENCIES]
  · intro sa c hc
    simp [is_allowed, SUPPORTED_CURRENCIES, hc]

/-- Witness for claim C8 at the concrete currencies EUR and USD. -/
theorem is_allowed_eur_only_witness :
    is_allowed true "EUR" = true ∧ is_allowed true "USD" = false :=
  ⟨(is_allowed_eur_only.1 "EUR").mpr rfl, is_allowed_eur_only.2 true "USD" (by decide)⟩

/-- Claim C9: `payment_is_valid_session` is true exactly when both session
entries `payment_paypal_id` and `payment_paypal_payer` are present with
non-empty string values, and its value depends on no other session key
(in particular on no MB WAY or IfThenPay specific entry). -/
theorem payment_is_valid_session_spec :
    ∀ session : String → Option String,
      (payment_is_valid_session session = true ↔
        ((∃ v, session "payment_paypal_id" = some v ∧ v ≠ "") ∧
         (∃ v, session "payment_paypal_payer" = some v ∧ v ≠ ""))) ∧
      (∀ t : String → Option String,
        session "payment_paypal_id" = t "payment_paypal_id" →
        session "payment_paypal_payer" = t "payment_paypal_payer" →
        payment_is_valid_session session = payment_is_valid_session t) := by
  intro session
  constructor
  · cases h1 : session "payment_paypal_id" with
    | none =>
        cases h2 : session "payment_paypal_payer" <;>
          simp [payment_is_valid_session, sessionGetD, h1, h2]
    | some a =>
        cases h2 : session "payment_paypal_payer" <;>
          simp [payment_is_valid_session, sessionGetD, h1, h2]
  · intro t h1 h2
    simp [payment_is_valid_session, sessionGetD, h1, h2]

/-- Witness for claim C9 at a concrete session holding both PayPal
entries. -/
theorem payment_is_valid_session_witness :
    payment_is_valid_session
      (fun k =>
        if k == "payment_paypal_id" then some "PAY-7"
        else if k == "payment_paypal_payer" then some "PAYER-2" else none) = true :=
  ((payment_is_valid_session_spec
      (fun k =>
        if k == "payment_paypal_id" then some "PAY-7"
        else if k == "payment_paypal_payer" then some "PAYER-2" else none)).1).mpr
    ⟨⟨"PAY-7", by decide, by decide⟩, ⟨"PAYER-2", by decide, by decide⟩⟩

/-- Claim C10: for every non-negative amount (embedded as `cents` cents),
`format_price` yields one leading space followed by the decimal integer
part, a point, and exactly two fraction digits; the character after the
space is a digit, so there is exactly one leading space and no sign. -/
theorem format_price_spec (cents : Nat) :
    (format_price cents).data =
      ' ' :: ((Nat.repr (cents / 100)).data ++ '.' :: (pad2 (cents % 100)).data) ∧
    (∀ c ∈ (Nat.repr (cents / 100)).data, c.isDigit = true) ∧
    (Nat.repr (cents / 100)).data ≠ [] ∧
    (pad2 (cents % 100)).length = 2 ∧
    (∀ c ∈ (pad2 (cents % 100)).data, c.isDigit = true) := by
  have hk : cents % 100 < 100 := Nat.mod_lt _ (by decide)
  refine ⟨?_, repr_isDigit _, repr_ne_nil _, (pad2_spec _ hk).1, (pad2_spec _ hk).2⟩
  show (" " ++ Nat.repr (cents / 100) ++ "." ++ pad2 (cents % 100)).data = _
  simp [String_data_append, List.append_assoc]

/-- Witness for claim C10: an amount of three whole units renders as
a space, the digit, a point and two zero fraction digits. -/
theorem format_price_spec_witness :
    format_price 300 = " 3.00" ∧ Char.isDigit '3' = true :=
  ⟨by decide, (format_price_spec 300).2.1 '3' (by decide)⟩

/-- Claim C5: the order-id-returning helper computes the local payment id
modulo ten to the fifteenth, rendered as a decimal string whose
characters are all digits, hence with no leading sign; the helper is a
pure function of the payment, so it cannot mutate it. -/
theorem get_order_id_spec (p : OrderPaymentRec) :
    payment_control_render_short p = Nat.repr (p.local_id % 10 ^ 15) ∧
    (∀ c ∈ (payment_control_render_short p).data, c.isDigit = true) ∧
    (∀ c ∈ (payment_control_render_short p).data, c ≠ '-') := by
  refine ⟨rfl, repr_isDigit _, ?_⟩
  intro c hc heq
  have h := repr_isDigit (p.local_id % 10 ^ 15) c hc
  rw [heq] at h
  exact absurd h (by decide)

/-- Witness for claim C5: a local id one beyond the modulus plus seven is
truncated to seven. -/
theorem get_order_id_spec_witness :
    payment_control_render_short
        { local_id := 10 ^ 15 + 7, info_data := { id := none, transactions := [] } } =
      Nat.repr ((10 ^ 15 + 7) % 10 ^ 15) ∧
    Nat.repr ((10 ^ 15 + 7) % 10 ^ 15) = "7" ∧
    Char.isDigit '7' = true :=
  ⟨(get_order_id_spec _).1, by decide, (get_order_id_spec
      { local_id := 10 ^ 15 + 7, info_data := { id := none, transactions := [] } }).2.1
    '7' (by decide)⟩

/-- Claim C1 evaluated on the code: on a gateway payment object in state
`approved` with no transactions and a host payment in state `created`,
the state mapping of `_execute_payment` calls `payment_obj.confirm()`
and leaves the payment `confirmed` — the adapter has a code path to
`confirmed`, contradicting the claimed invariant. -/
theorem execute_payment_confirms_on_approved :
    (_execute_payment { state := "approved", transactions := [] }
        { state := PayState.created, info := none, saveCount := 0 }).confirmCalled = true ∧
    (_execute_payment { state := "approved", transactions := [] }
        { state := PayState.created, info := none, saveCount := 0 }).obj.state =
      PayState.confirmed :=
  ⟨rfl, rfl⟩

/-- Claim C2 evaluated on the code: on a successful synchronous exchange
(the gateway payment object comes back `approved`), the payment is not
set to `pending` (it is confirmed) and the method returns `None` rather
than the raw gateway response. -/
theorem execute_payment_success_not_pending :
    (_execute_payment { state := "approved", transactions := [] }
        { state := PayState.created, info := none, saveCount := 0 }).obj.state ≠
      PayState.pending ∧
    (_execute_payment { state := "approved", transactions := [] }
        { state := PayState.created, info := none, saveCount := 0 }).result =
      Except.ok () :=
  ⟨by decide, rfl⟩

/-- Claim C3 evaluated on the code: with an empty gateway key and a valid
PayPal session, `execute_payment` passes its sole validation gate without
raising a configuration error and then fails on the missing `init_api`
attribute; no configuration value is ever consulted and no HTTP request
is issued. -/
theorem execute_payment_ignores_configuration :
    (execute_payment
        { gateway_key := "", mb_way_key := "MBW-1", environment := "live", description := "" }
        (fun k =>
          if k == "payment_paypal_id" then some "PAY-1"
          else if k == "payment_paypal_payer" then some "PAYER-9" else none)).result =
      Except.error (PyExc.attributeError "init_api") ∧
    (execute_payment
        { gateway_key := "", mb_way_key := "MBW-1", environment := "live", description := "" }
        (fun k =>
          if k == "payment_paypal_id" then some "PAY-1"
          else if k == "payment_paypal_payer" then some "PAYER-9" else none)).httpRequests = 0 ∧
    Except.error (PyExc.attributeError "init_api") ≠
      (Except.error PyExc.paymentException : Except PyExc Unit) :=
  ⟨rfl, rfl, by decide⟩

/-- Claim C4 evaluated on the code: on a non-success outcome (gateway
payment object in state `failed`), `_execute_payment` raises
`PaymentException` after marking the payment failed, instead of returning
a boolean false with the state left at `created`. -/
theorem execute_payment_failure_raises :
    (_execute_payment { state := "failed", transactions := [] }
        { state := PayState.created, info := none, saveCount := 0 }).result =
      Except.error PyExc.paymentException ∧
    (_execute_payment { state := "failed", transactions := [] }
        { state := PayState.created, info := none, saveCount := 0 }).obj.state =
      PayState.failed :=
  ⟨rfl, rfl⟩

/-- Claim C6 evaluated on the code: `checkout_prepare` never reaches the
base hook — its zero-argument super call raises `TypeError` — so for a
base implementation returning `ok true` the hook and the base disagree;
and `shred_payment_info` transforms the object itself instead of handing
it to the base implementation. -/
theorem checkout_prepare_not_delegating :
    checkout_prepare (fun _ _ => Except.ok true) () () =
      Except.error
        (PyExc.typeError "checkout_prepare missing 2 required positional arguments") ∧
    (fun (_ : Unit) (_ : Unit) => (Except.ok true : Except PyExc Bool)) () () =
      Except.ok true ∧
    shred_payment_info (fun o => o)
        { info := some { id := some "PAY-1", payer_email := some "alice",
                         update_time := none, transaction_amounts := [], shredded := false },
          saveCount := 0 } ≠
      (fun o => o)
        { info := some { id := some "PAY-1", payer_email := some "alice",
                         update_time := none, transaction_amounts := [], shredded := false },
          saveCount := 0 } :=
  ⟨rfl, rfl, by decide⟩

/-- Claim C7 evaluated on the code: `matching_id` returns the stored
gateway payment id from `info_data`, not the derived order id of the
local payment id. -/
theorem matching_id_not_order_id :
    matching_id { local_id := 7, info_data := { id := some "PAY-123", transactions := [] } } =
      some "PAY-123" ∧
    get_order_id 7 = "7" ∧
    (some "PAY-123" : Option String) ≠ some (get_order_id 7) :=
  ⟨rfl, by decide, by decide⟩
